import Mathlib

/-!
Shallow embedding of `src/src/bun/rqliteDatabase.ts`: a TypeScript client
adapter exposing an rqlite HTTP API behind a Bun-SQLite-shaped interface.

Modelling conventions:
* JavaScript runtime values that can flow through the adapter are `JVal`
  (JSON values plus `undefined`, which arises from absent-property reads).
* The asynchronous effect of each adapter method is made explicit: a method
  takes the environment `remote : Remote` (what `fetch` followed by
  `response.json()` yields for a request) and returns its result in
  `Except Err _` (a rejected promise is `Except.error`), paired with the
  list of HTTP requests it issued.
* Mutable-object methods of the `Statements` class are state-passing: each
  method returns its result together with the post-state of the object.
-/

set_option autoImplicit false

/-- JavaScript runtime values reachable in the adapter: the JSON values plus
`undefined` (produced by reading an absent property). -/
inductive JVal where
  | undefined
  | null
  | bool (b : Bool)
  | num (n : Int)
  | str (s : String)
  | arr (elems : List JVal)
  | obj (fields : List (String × JVal))

/-- A thrown JavaScript error / rejected promise reason, opaque to the
adapter (it installs no handler and never inspects one). -/
structure Err where
  msg : String

/-- The HTTP request issued by `_executeQuery`: method, URL, the
`Content-Type` header, and the `JSON.stringify({ sql, params })` body,
kept in structured form. -/
structure HttpRequest where
  url : String
  method : String
  contentType : String
  body : JVal

/-- What a resolved `fetch` hands back: the HTTP status code (which the
adapter never reads) and the outcome of calling `.json()` on the body
(`Except.error` when the body is not valid JSON). -/
structure HttpResponse where
  status : Nat
  jsonBody : Except Err JVal

/-- The network environment: for each request, either a network-level
failure (`fetch` rejects) or a response. -/
abbrev Remote := HttpRequest → Except Err HttpResponse

/-- JavaScript property read `v[k]` for a string key `k`.
Reading from `null` or `undefined` throws a TypeError; an absent property
yields `undefined`; `length` on arrays and strings is their length.
(ToString-based exotica such as inherited methods are not modelled; no
theorem below depends on them.) -/
def JVal.getProp : JVal → String → Except Err JVal
  | .undefined, _ => .error { msg := "TypeError: property read on undefined" }
  | .null, _ => .error { msg := "TypeError: property read on null" }
  | .obj fields, k => .ok ((fields.lookup k).getD .undefined)
  | .arr elems, k => .ok (if k = "length" then .num elems.length else .undefined)
  | .str s, k => .ok (if k = "length" then .num s.length else .undefined)
  | _, _ => .ok .undefined

/-- JavaScript indexed read `v[i]` for a numeric index.
Indexing `null`/`undefined` throws; out-of-range array access yields
`undefined`; string indexing yields a one-character string. -/
def JVal.getIndex : JVal → Nat → Except Err JVal
  | .undefined, _ => .error { msg := "TypeError: index read on undefined" }
  | .null, _ => .error { msg := "TypeError: index read on null" }
  | .arr elems, i => .ok ((elems.get? i).getD .undefined)
  | .str s, i => .ok (match s.toList.get? i with
      | some c => .str (String.mk [c])
      | none => .undefined)
  | .obj fields, i => .ok ((fields.lookup (toString i)).getD .undefined)
  | _, _ => .ok .undefined

/-- The JavaScript comparison `v > 0` (via ToNumber; a NaN comparison is
false). Array and object operands coerce through string conversion, which
is not modelled: they compare false here. No theorem below applies this
definition to an array or object operand. -/
def JVal.gtZero : JVal → Bool
  | .num n => decide (0 < n)
  | .bool b => b
  | .str s => match s.toInt? with
      | some n => decide (0 < n)
      | none => false
  | _ => false

/-- JavaScript `Object.values(v)`: own enumerable property values in
insertion order. Throws on `null`/`undefined`; an array yields its
elements, a primitive string its characters, other primitives `[]`. -/
def JVal.objectValues : JVal → Except Err (List JVal)
  | .undefined => .error { msg := "TypeError: Object.values of undefined" }
  | .null => .error { msg := "TypeError: Object.values of null" }
  | .obj fields => .ok (fields.map Prod.snd)
  | .arr elems => .ok elems
  | .str s => .ok (s.toList.map fun c => .str (String.mk [c]))
  | _ => .ok []

/-- `Array.prototype.map` with a callback that can throw: elements are
visited left to right and the first thrown error propagates. -/
def jsArrayMap (f : JVal → Except Err JVal) : List JVal → Except Err (List JVal)
  | [] => .ok []
  | x :: xs => do
      let y ← f x
      let ys ← jsArrayMap f xs
      pure (y :: ys)

/-- The `RqliteDatabase` class: its only field is the base URL given to the
constructor. -/
structure RqliteDatabase where
  baseUrl : String

/-- The request `_executeQuery` builds: a POST to `${baseUrl}/db/execute`
with a JSON body `{ sql, params }`. -/
def execRequest (db : RqliteDatabase) (sql : String) (params : List JVal) : HttpRequest :=
  { url := db.baseUrl ++ "/db/execute"
    method := "POST"
    contentType := "application/json"
    body := .obj [("sql", .str sql), ("params", .arr params)] }

/-- `RqliteDatabase._executeQuery(sql, params)`: awaits one `fetch` of the
built request and returns `response.json()`. The pair's second component
records the requests issued (exactly one). -/
def RqliteDatabase.executeQuery (remote : Remote) (db : RqliteDatabase)
    (sql : String) (params : List JVal) : Except Err JVal × List HttpRequest :=
  ((do
      let response ← remote (execRequest db sql params)
      response.jsonBody),
   [execRequest db sql params])

/-- `RqliteDatabase.run(sql, params)`: `return await this._executeQuery(sql, params)`,
the JSON response verbatim. -/
def RqliteDatabase.run (remote : Remote) (db : RqliteDatabase)
    (sql : String) (params : List JVal) : Except Err JVal × List HttpRequest :=
  db.executeQuery remote sql params

/-- `RqliteDatabase.query(sql, params)`: `(await this._executeQuery(sql, params)).rows`. -/
def RqliteDatabase.query (remote : Remote) (db : RqliteDatabase)
    (sql : String) (params : List JVal) : Except Err JVal × List HttpRequest :=
  let r := db.executeQuery remote sql params
  ((do
      let result ← r.1
      result.getProp "rows"),
   r.2)

/-- `RqliteDatabase.get(sql, params)`:
`const rows = await this.query(sql, params); return rows.length > 0 ? rows[0] : null`. -/
def RqliteDatabase.get (remote : Remote) (db : RqliteDatabase)
    (sql : String) (params : List JVal) : Except Err JVal × List HttpRequest :=
  let r := db.query remote sql params
  ((do
      let rows ← r.1
      let len ← rows.getProp "length"
      if len.gtZero then rows.getIndex 0 else pure JVal.null),
   r.2)

/-- Class names declared in module `rqliteDatabase.ts`
(`export default class RqliteDatabase`, `export class Statements`). -/
def declaredClassNames : List String := ["RqliteDatabase", "Statements"]

/-- The identifier that `RqliteDatabase.prepare` instantiates:
`return new Statement(this, sql)`. The module has no import and declares
no binding of this name, so evaluating `prepare` throws a ReferenceError. -/
def prepareNewTarget : String := "Statement"

/-- The `Statements` class: a database reference, the SQL text, and the
currently bound parameter list. -/
structure Statements where
  db : RqliteDatabase
  sql : String
  params : List JVal

/-- The `Statements` constructor: stores `db` and `sql` and initialises
`params` to `[]`. -/
def Statements.make (db : RqliteDatabase) (sql : String) : Statements :=
  { db := db, sql := sql, params := [] }

/-- `Statements.bind(...params)`: overwrites the bound parameters and
returns `this` (which is also the post-state). -/
def Statements.bind (st : Statements) (params : List JVal) : Statements :=
  { st with params := params }

/-- `Statements.all()`: `await this.db.query(this.sql, this.params)`.
The body contains no assignment, so the post-state is the receiver. -/
def Statements.all (remote : Remote) (st : Statements) :
    (Except Err JVal × List HttpRequest) × Statements :=
  (RqliteDatabase.query remote st.db st.sql st.params, st)

/-- `Statements.get()`: `await this.db.get(this.sql, this.params)`. -/
def Statements.get (remote : Remote) (st : Statements) :
    (Except Err JVal × List HttpRequest) × Statements :=
  (RqliteDatabase.get remote st.db st.sql st.params, st)

/-- `Statements.run()`: `await this.db.run(this.sql, this.params)`. -/
def Statements.run (remote : Remote) (st : Statements) :
    (Except Err JVal × List HttpRequest) × Statements :=
  (RqliteDatabase.run remote st.db st.sql st.params, st)

/-- `Statements.values()`:
`const rows = await this.all(); return rows.map(row => Object.values(row)[0])`.
A non-array `rows` has no callable `map`, hence the TypeError branch. -/
def Statements.values (remote : Remote) (st : Statements) :
    (Except Err JVal × List HttpRequest) × Statements :=
  let a := st.all remote
  (((do
      let rows ← a.1.1
      match rows with
      | .arr elems => do
          let ys ← jsArrayMap (fun row => do
              let vs ← row.objectValues
              pure ((vs.get? 0).getD .undefined)) elems
          pure (.arr ys)
      | _ => .error { msg := "TypeError: rows.map is not a function" }),
    a.1.2), a.2)

/-- `Statements.finalize()`: sets `this.sql = ''` and `this.params = []`
and returns `this`. -/
def Statements.finalize (st : Statements) : Statements :=
  { st with sql := "", params := [] }

/-- `Statements.toString()`: returns `this.sql`. -/
def Statements.toString (st : Statements) : String :=
  st.sql

/-! ### Reduction lemmas for the `Except` monad as used above -/

/-- Binding a success value applies the continuation. -/
theorem err_bind_ok {α β : Type} (a : α) (f : α → Except Err β) :
    (do
      let x ← (.ok a : Except Err α)
      f x) = f a := rfl

/-- Binding a thrown error short-circuits. -/
theorem err_bind_error {α β : Type} (e : Err) (f : α → Except Err β) :
    (do
      let x ← (.error e : Except Err α)
      f x) = .error e := rfl

/-- The result component of `_executeQuery`: one awaited response, then
`response.json()`. -/
theorem executeQuery_fst (remote : Remote) (db : RqliteDatabase)
    (sql : String) (params : List JVal) :
    (RqliteDatabase.executeQuery remote db sql params).1
      = (do
          let response ← remote (execRequest db sql params)
          response.jsonBody) := rfl

/-- The result component of `query` in terms of `_executeQuery`. -/
theorem query_fst (remote : Remote) (db : RqliteDatabase)
    (sql : String) (params : List JVal) :
    (RqliteDatabase.query remote db sql params).1
      = (do
          let result ← (RqliteDatabase.executeQuery remote db sql params).1
          result.getProp "rows") := rfl

/-- The result component of `get` in terms of `query`. -/
theorem get_fst (remote : Remote) (db : RqliteDatabase)
    (sql : String) (params : List JVal) :
    (RqliteDatabase.get remote db sql params).1
      = (do
          let rows ← (RqliteDatabase.query remote db sql params).1
          let len ← rows.getProp "length"
          if len.gtZero then rows.getIndex 0 else pure JVal.null) := rfl

/-- The result component of `Statements.values` in terms of `all`. -/
theorem values_fst (remote : Remote) (st : Statements) :
    (st.values remote).1.1
      = (do
          let rows ← (st.all remote).1.1
          match rows with
          | .arr elems => do
              let ys ← jsArrayMap (fun row => do
                  let vs ← row.objectValues
                  pure ((vs.get? 0).getD .undefined)) elems
              pure (.arr ys)
          | _ => .error { msg := "TypeError: rows.map is not a function" }) := rfl

/-- When the remote answers with a JSON object whose `rows` field is an
array, `query` returns exactly that array. -/
theorem query_fst_of_rows (remote : Remote) (db : RqliteDatabase)
    (sql : String) (params : List JVal) (status : Nat)
    (fields : List (String × JVal)) (rows : List JVal)
    (hresp : remote (execRequest db sql params)
      = .ok { status := status, jsonBody := .ok (.obj fields) })
    (hrows : fields.lookup "rows" = some (.arr rows)) :
    (RqliteDatabase.query remote db sql params).1 = .ok (.arr rows) := by
  rw [query_fst, executeQuery_fst, hresp, err_bind_ok]
  show JVal.getProp (.obj fields) "rows" = .ok (.arr rows)
  rw [JVal.getProp, hrows]
  rfl

/-- When `query` returns an array of rows, `get` returns its head, or
JSON `null` when it is empty. -/
theorem get_fst_of_query_rows (remote : Remote) (db : RqliteDatabase)
    (sql : String) (params : List JVal) (rows : List JVal)
    (hq : (RqliteDatabase.query remote db sql params).1 = .ok (.arr rows)) :
    (RqliteDatabase.get remote db sql params).1 = .ok (rows.headD JVal.null) := by
  rw [get_fst, hq, err_bind_ok]
  cases rows with
  | nil => rfl
  | cons r rest =>
      show (do
          let len ← JVal.getProp (.arr (r :: rest)) "length"
          if len.gtZero then JVal.getIndex (.arr (r :: rest)) 0 else pure JVal.null)
        = .ok ((r :: rest).headD JVal.null)
      rw [JVal.getProp, err_bind_ok]
      simp [JVal.gtZero, JVal.getIndex]

/-! ### Concrete instances used to exercise the theorems -/

/-- A database connected to the compose file's node-1 query port. -/
def db0 : RqliteDatabase := { baseUrl := "http://localhost:4001" }

/-- A stub remote reporting an execution summary. -/
def remoteExec : Remote := fun _ =>
  .ok { status := 200,
        jsonBody := .ok (.obj [("changes", .num 1), ("lastInsertRowid", .num 7)]) }

/-- Two result rows, in a fixed order. -/
def rowsA : List JVal := [.obj [("a", .num 1)], .obj [("a", .num 2)]]

/-- A stub remote answering every request with the two rows of `rowsA`. -/
def remoteTwoRows : Remote := fun _ =>
  .ok { status := 200, jsonBody := .ok (.obj [("rows", .arr rowsA)]) }

/-- A stub remote answering with an empty row set. -/
def remoteNoRows : Remote := fun _ =>
  .ok { status := 200, jsonBody := .ok (.obj [("rows", .arr [])]) }

/-- A stub remote whose network call fails: `fetch` rejects. -/
def remoteFail : Remote := fun _ =>
  .error { msg := "fetch failed: ECONNREFUSED" }

/-- A stub remote answering with HTTP 500 and a JSON error body, as rqlite
does when it cannot serve a request. -/
def remoteStatus500 : Remote := fun _ =>
  .ok { status := 500, jsonBody := .ok (.obj [("error", .str "not leader")]) }

/-- A stub remote answering with one two-column row followed by one
zero-column row. -/
def remoteMixedRows : Remote := fun _ =>
  .ok { status := 200,
        jsonBody := .ok (.obj [("rows",
          .arr [.obj [("a", .num 1), ("b", .num 2)], .obj []])]) }

/-! ### Claims -/

/-- C1: `prepare` is claimed to return a prepared-statement object and to
succeed without error. The body `new Statement(this, sql)` instantiates the
identifier `Statement`, which is not among the class names the module
declares (the statement class is declared as `Statements`), so every call
to `prepare` throws a ReferenceError instead of returning an object. -/
theorem prepare_target_class_undeclared : prepareNewTarget ∉ declaredClassNames := by
  decide

/-- C2: `run(sql, params)` issues exactly one request whose body carries
the given SQL text and parameter list verbatim, and returns the remote's
JSON response verbatim, so the reported change count and last-inserted
identifier reach the caller unchanged. -/
theorem run_forwards_and_returns_verbatim (remote : Remote) (db : RqliteDatabase)
    (sql : String) (params : List JVal) (status : Nat) (body : JVal)
    (hresp : remote (execRequest db sql params)
      = .ok { status := status, jsonBody := .ok body }) :
    (RqliteDatabase.run remote db sql params).1 = .ok body ∧
    (RqliteDatabase.run remote db sql params).2 = [execRequest db sql params] ∧
    (execRequest db sql params).body
      = .obj [("sql", .str sql), ("params", .arr params)] := by
  refine ⟨?_, rfl, rfl⟩
  show (RqliteDatabase.executeQuery remote db sql params).1 = .ok body
  rw [executeQuery_fst, hresp, err_bind_ok]

/-- Witness for C2 at a concrete insert whose remote reports one change
and rowid 7. -/
theorem run_forwards_and_returns_verbatim_witness :
    (RqliteDatabase.run remoteExec db0 "INSERT INTO t(x) VALUES (?)" [.num 5]).1
      = .ok (.obj [("changes", .num 1), ("lastInsertRowid", .num 7)]) ∧
    (RqliteDatabase.run remoteExec db0 "INSERT INTO t(x) VALUES (?)" [.num 5]).2
      = [execRequest db0 "INSERT INTO t(x) VALUES (?)" [.num 5]] ∧
    (execRequest db0 "INSERT INTO t(x) VALUES (?)" [.num 5]).body
      = .obj [("sql", .str "INSERT INTO t(x) VALUES (?)"),
              ("params", .arr [.num 5])] :=
  run_forwards_and_returns_verbatim remoteExec db0 "INSERT INTO t(x) VALUES (?)"
    [.num 5] 200 (.obj [("changes", .num 1), ("lastInsertRowid", .num 7)]) rfl

/-- C3: when the remote response carries a `rows` array, `query` returns
exactly that array: the same row objects, in the same order. -/
theorem query_returns_rows_in_order (remote : Remote) (db : RqliteDatabase)
    (sql : String) (params : List JVal) (status : Nat)
    (fields : List (String × JVal)) (rows : List JVal)
    (hresp : remote (execRequest db sql params)
      = .ok { status := status, jsonBody := .ok (.obj fields) })
    (hrows : fields.lookup "rows" = some (.arr rows)) :
    (RqliteDatabase.query remote db sql params).1 = .ok (.arr rows) :=
  query_fst_of_rows remote db sql params status fields rows hresp hrows

/-- Witness for C3 on a two-row response. -/
theorem query_returns_rows_in_order_witness :
    (RqliteDatabase.query remoteTwoRows db0 "SELECT a FROM t" []).1
      = .ok (.arr rowsA) :=
  query_returns_rows_in_order remoteTwoRows db0 "SELECT a FROM t" [] 200
    [("rows", .arr rowsA)] rowsA rfl rfl

/-- C4 counterexample: the claim says a non-success response is propagated
as a failure, never converted into a normal return value. At a concrete
input the remote answers HTTP 500 with a JSON error body, yet `run`
resolves normally with that body: the adapter never inspects the status. -/
theorem error_status_becomes_normal_return :
    remoteStatus500 (execRequest db0 "INSERT INTO t(x) VALUES (1)" [])
      = .ok { status := 500, jsonBody := .ok (.obj [("error", .str "not leader")]) } ∧
    (RqliteDatabase.run remoteStatus500 db0 "INSERT INTO t(x) VALUES (1)" []).1
      = .ok (.obj [("error", .str "not leader")]) :=
  ⟨rfl, rfl⟩

/-- C4 (amended): a failure of the network call itself, or a failure to
parse the response body as JSON, propagates to `run`, `get` and `query`
unchanged: not classified, wrapped, or recovered from. (The HTTP status,
by contrast, is never inspected; see `error_status_becomes_normal_return`.) -/
theorem failures_propagate_unwrapped (remote : Remote) (db : RqliteDatabase)
    (sql : String) (params : List JVal) (resp : HttpResponse) (e : Err)
    (hfail : remote (execRequest db sql params) = .error e ∨
      (remote (execRequest db sql params) = .ok resp ∧ resp.jsonBody = .error e)) :
    (RqliteDatabase.run remote db sql params).1 = .error e ∧
    (RqliteDatabase.get remote db sql params).1 = .error e ∧
    (RqliteDatabase.query remote db sql params).1 = .error e := by
  have hex : (RqliteDatabase.executeQuery remote db sql params).1 = .error e := by
    rcases hfail with h | ⟨h, hj⟩
    · rw [executeQuery_fst, h, err_bind_error]
    · rw [executeQuery_fst, h, err_bind_ok, hj]
  have hq : (RqliteDatabase.query remote db sql params).1 = .error e := by
    rw [query_fst, hex, err_bind_error]
  exact ⟨hex, by rw [get_fst, hq, err_bind_error], hq⟩

/-- Witness for the amended C4: a rejected `fetch` surfaces unchanged from
all three methods. -/
theorem failures_propagate_unwrapped_witness :
    (RqliteDatabase.run remoteFail db0 "SELECT 1" []).1
      = .error { msg := "fetch failed: ECONNREFUSED" } ∧
    (RqliteDatabase.get remoteFail db0 "SELECT 1" []).1
      = .error { msg := "fetch failed: ECONNREFUSED" } ∧
    (RqliteDatabase.query remoteFail db0 "SELECT 1" []).1
      = .error { msg := "fetch failed: ECONNREFUSED" } :=
  failures_propagate_unwrapped remoteFail db0 "SELECT 1" []
    { status := 200, jsonBody := .ok .null }
    { msg := "fetch failed: ECONNREFUSED" } (Or.inl rfl)

/-- C5: when the remote response carries a `rows` array, `get` returns
JSON `null` on an empty array and the first row otherwise. -/
theorem get_null_iff_no_rows (remote : Remote) (db : RqliteDatabase)
    (sql : String) (params : List JVal) (status : Nat)
    (fields : List (String × JVal)) (rows : List JVal)
    (hresp : remote (execRequest db sql params)
      = .ok { status := status, jsonBody := .ok (.obj fields) })
    (hrows : fields.lookup "rows" = some (.arr rows)) :
    (RqliteDatabase.get remote db sql params).1 = .ok (rows.headD JVal.null) :=
  get_fst_of_query_rows remote db sql params rows
    (query_fst_of_rows remote db sql params status fields rows hresp hrows)

/-- Witness for C5 on an empty row set: `get` yields `null`. -/
theorem get_null_iff_no_rows_witness :
    (RqliteDatabase.get remoteNoRows db0 "SELECT a FROM t WHERE 0" []).1
      = .ok JVal.null :=
  get_null_iff_no_rows remoteNoRows db0 "SELECT a FROM t WHERE 0" [] 200
    [("rows", .arr [])] [] rfl rfl

/-- C6: `finalize` clears the SQL text and the parameter list in every
state, so a subsequent `toString` yields the empty string. -/
theorem finalize_clears_statement (st : Statements) :
    st.finalize.sql = "" ∧ st.finalize.params = [] ∧
    Statements.toString st.finalize = "" :=
  ⟨rfl, rfl, rfl⟩

/-- C7: after `bind`, the statement holds exactly the new parameters and
the unchanged SQL text; `all`, `get`, `run` and `values` leave the
statement untouched (post-state equals receiver) and each issues its
request with exactly the bound parameters and the stored SQL text. -/
theorem bound_params_reused_verbatim (remote : Remote) (st : Statements)
    (ps : List JVal) :
    (st.bind ps).sql = st.sql ∧
    (st.bind ps).params = ps ∧
    ((st.bind ps).all remote).2 = st.bind ps ∧
    ((st.bind ps).get remote).2 = st.bind ps ∧
    ((st.bind ps).run remote).2 = st.bind ps ∧
    ((st.bind ps).values remote).2 = st.bind ps ∧
    ((st.bind ps).all remote).1.2 = [execRequest st.db st.sql ps] ∧
    ((st.bind ps).get remote).1.2 = [execRequest st.db st.sql ps] ∧
    ((st.bind ps).run remote).1.2 = [execRequest st.db st.sql ps] ∧
    ((st.bind ps).values remote).1.2 = [execRequest st.db st.sql ps] :=
  ⟨rfl, rfl, rfl, rfl, rfl, rfl, rfl, rfl, rfl, rfl⟩

/-- C8: each of `run`, `get` and `query` issues exactly one HTTP request:
a POST to `${baseUrl}/db/execute` with a JSON content type and a body
holding the SQL statement and the positional parameter list. -/
theorem one_post_request_per_call (remote : Remote) (db : RqliteDatabase)
    (sql : String) (params : List JVal) :
    (RqliteDatabase.run remote db sql params).2 = [execRequest db sql params] ∧
    (RqliteDatabase.get remote db sql params).2 = [execRequest db sql params] ∧
    (RqliteDatabase.query remote db sql params).2 = [execRequest db sql params] ∧
    (execRequest db sql params).method = "POST" ∧
    (execRequest db sql params).url = db.baseUrl ++ "/db/execute" ∧
    (execRequest db sql params).contentType = "application/json" ∧
    (execRequest db sql params).body
      = .obj [("sql", .str sql), ("params", .arr params)] :=
  ⟨rfl, rfl, rfl, rfl, rfl, rfl, rfl⟩

/-- C9: `get` agrees with `query`: when `query` yields a row array, `get`
yields its first element, or `null` when the array is empty; likewise a
prepared statement's `get()` is the head of its `all()` result or `null`. -/
theorem get_is_head_of_query (remote : Remote) (st : Statements) (rows : List JVal)
    (h : (st.all remote).1.1 = .ok (.arr rows)) :
    (st.get remote).1.1 = .ok (rows.headD JVal.null) ∧
    (RqliteDatabase.get remote st.db st.sql st.params).1
      = .ok (rows.headD JVal.null) := by
  have hq : (RqliteDatabase.query remote st.db st.sql st.params).1
      = .ok (.arr rows) := h
  have hg := get_fst_of_query_rows remote st.db st.sql st.params rows hq
  exact ⟨hg, hg⟩

/-- Witness for C9 on the two-row remote: both `get` forms return the
first row of `all`/`query`. -/
theorem get_is_head_of_query_witness :
    (Statements.get remoteTwoRows
        { db := db0, sql := "SELECT a FROM t", params := [] }).1.1
      = .ok (.obj [("a", .num 1)]) ∧
    (RqliteDatabase.get remoteTwoRows db0 "SELECT a FROM t" []).1
      = .ok (.obj [("a", .num 1)]) :=
  get_is_head_of_query remoteTwoRows
    { db := db0, sql := "SELECT a FROM t", params := [] } rowsA rfl

/-- Mapping the first-column extraction over object rows never throws:
each zero-column row contributes `undefined`. -/
theorem jsArrayMap_first_column (rows : List (List (String × JVal))) :
    jsArrayMap (fun row => do
        let vs ← row.objectValues
        pure ((vs.get? 0).getD .undefined)) (rows.map JVal.obj)
      = .ok (rows.map fun fields => ((fields.map Prod.snd).get? 0).getD JVal.undefined) := by
  induction rows with
  | nil => rfl
  | cons fs rest ih =>
      simp only [List.map_cons, jsArrayMap]
      rw [ih]
      rfl

/-- C10: `values()` returns, for each row of `all()`, the value of the
row's first column; no rows give the empty list, and a zero-column row
contributes `undefined` rather than failing the call. -/
theorem values_are_first_column (remote : Remote) (st : Statements)
    (rows : List (List (String × JVal)))
    (h : (st.all remote).1.1 = .ok (.arr (rows.map JVal.obj))) :
    (st.values remote).1.1
      = .ok (.arr (rows.map fun fields =>
          ((fields.map Prod.snd).get? 0).getD JVal.undefined)) := by
  rw [values_fst, h, err_bind_ok]
  show (do
      let ys ← jsArrayMap (fun row => do
          let vs ← row.objectValues
          pure ((vs.get? 0).getD .undefined)) (rows.map JVal.obj)
      pure (JVal.arr ys))
    = .ok (.arr (rows.map fun fields =>
        ((fields.map Prod.snd).get? 0).getD JVal.undefined))
  rw [jsArrayMap_first_column, err_bind_ok]
  rfl

/-- Witness for C10: a two-column row followed by a zero-column row yields
the first column's value and then `undefined`, with no error. -/
theorem values_are_first_column_witness :
    (Statements.values remoteMixedRows
        { db := db0, sql := "SELECT a, b FROM t", params := [] }).1.1
      = .ok (.arr [.num 1, .undefined]) :=
  values_are_first_column remoteMixedRows
    { db := db0, sql := "SELECT a, b FROM t", params := [] }
    [[("a", .num 1), ("b", .num 2)], []] rfl
